import Mathlib

/-!
Shallow embedding of the waveform-generation core (`Waveform.c` / `Waveform.h`)
of the OpenScan NIDAQ module, together with proofs of the specified properties.

Modelling conventions:
* C `double` arithmetic is modelled by exact real arithmetic (`ℝ`).
* C `uint32_t` / nonneg `int32_t` quantities are modelled by `ℕ`; the
  parameter values of interest stay far below `2^32`, so wraparound is not
  modelled.
* The implicit C conversion from `double` to `uint32_t` (used by
  `GenerateGalvoWaveformFrame` on the `zoom`, `galvoOffsetX`, `galvoOffsetY`
  fields) is modelled by `fun x => (⌊x⌋).toNat`, which is truncation for
  non-negative in-range values.
* The source expression `pixelsPerLine / (zoom * resolution)` divides two
  `uint32_t` values, so it is C integer division; it is modelled by `ℕ`
  division (`Nat.div`).
* Buffers written by the C functions are modelled as the `List` of the values
  stored at flattened indices `0, 1, 2, ...`.
-/

/-- `X_RETRACE_LEN` from `Waveform.h`. -/
def X_RETRACE_LEN : ℕ := 128

/-- `Y_RETRACE_LEN` from `Waveform.h`. -/
def Y_RETRACE_LEN : ℕ := 12

/-- `struct WaveformParams` from `Waveform.h`.  `uint32_t` fields become `ℕ`,
`double` fields become `ℝ`. -/
structure WaveformParams where
  width : ℕ
  height : ℕ
  resolution : ℕ
  zoom : ℝ
  undershoot : ℕ
  xOffset : ℕ
  yOffset : ℕ
  galvoOffsetX : ℝ
  galvoOffsetY : ℝ

/-- Divisor `n` appearing in `SplineInterpolate`. -/
def splineDenom1 (n : ℕ) : ℝ := (n : ℝ)

/-- Divisor `n*n` appearing in `SplineInterpolate`. -/
def splineDenom2 (n : ℕ) : ℝ := (n : ℝ) * (n : ℝ)

/-- Divisor `n*n*n` appearing in `SplineInterpolate`. -/
def splineDenom3 (n : ℕ) : ℝ := (n : ℝ) * (n : ℝ) * (n : ℝ)

/-- Coefficient `c[0]` computed by `SplineInterpolate` (Waveform.c line 40). -/
noncomputable def splineC0 (n : ℕ) (yFirst yLast slopeFirst slopeLast : ℝ) : ℝ :=
  slopeFirst / splineDenom2 n + 2 / splineDenom3 n * yFirst
    + slopeLast / splineDenom2 n - 2 / splineDenom3 n * yLast

/-- Coefficient `c[1]` computed by `SplineInterpolate` (Waveform.c line 41). -/
noncomputable def splineC1 (n : ℕ) (yFirst yLast slopeFirst slopeLast : ℝ) : ℝ :=
  3 / splineDenom2 n * yLast - slopeLast / splineDenom1 n
    - 2 / splineDenom1 n * slopeFirst - 3 / splineDenom2 n * yFirst

/-- Coefficient `c[2]` computed by `SplineInterpolate` (Waveform.c line 42). -/
def splineC2 (n : ℕ) (yFirst yLast slopeFirst slopeLast : ℝ) : ℝ := slopeFirst

/-- Coefficient `c[3]` computed by `SplineInterpolate` (Waveform.c line 43). -/
def splineC3 (n : ℕ) (yFirst yLast slopeFirst slopeLast : ℝ) : ℝ := yFirst

/-- `SplineInterpolate` from `Waveform.c`: evaluates the fitted cubic
`c0*x*x*x + c1*x*x + c2*x + c3` at `x = 0, ..., n-1`. -/
noncomputable def SplineInterpolate (n : ℕ) (yFirst yLast slopeFirst slopeLast : ℝ) :
    List ℝ :=
  (List.range n).map fun x : ℕ =>
    splineC0 n yFirst yLast slopeFirst slopeLast * (x : ℝ) * (x : ℝ) * (x : ℝ)
      + splineC1 n yFirst yLast slopeFirst slopeLast * (x : ℝ) * (x : ℝ)
      + splineC2 n yFirst yLast slopeFirst slopeLast * (x : ℝ)
      + splineC3 n yFirst yLast slopeFirst slopeLast

/-- Divisor `effectiveScanLen - 1` appearing in `GenerateGalvoWaveform`
(computed in C `int` arithmetic, hence the subtraction happens in `ℝ` after
casting, matching `int32_t` semantics for all `effectiveScanLen`). -/
def galvoStepDenom (effectiveScanLen : ℕ) : ℝ := (effectiveScanLen : ℝ) - 1

/-- `step = scanAmplitude / (effectiveScanLen - 1)` from `GenerateGalvoWaveform`. -/
noncomputable def galvoStep (effectiveScanLen : ℕ) (scanStart scanEnd : ℝ) : ℝ :=
  (scanEnd - scanStart) / galvoStepDenom effectiveScanLen

/-- `undershootStart = scanStart - undershootLen * step` from `GenerateGalvoWaveform`. -/
noncomputable def galvoUndershootStart (effectiveScanLen undershootLen : ℕ)
    (scanStart scanEnd : ℝ) : ℝ :=
  scanStart - (undershootLen : ℝ) * galvoStep effectiveScanLen scanStart scanEnd

/-- `GenerateGalvoWaveform` from `Waveform.c`: the linear scan curve on indices
`[0, undershootLen + effectiveScanLen)` followed by the spline retrace when
`retraceLen > 0`. -/
noncomputable def GenerateGalvoWaveform (effectiveScanLen retraceLen undershootLen : ℕ)
    (scanStart scanEnd : ℝ) : List ℝ :=
  let scanAmplitude := scanEnd - scanStart
  let linearLen := undershootLen + effectiveScanLen
  let linear := (List.range linearLen).map fun i : ℕ =>
    galvoUndershootStart effectiveScanLen undershootLen scanStart scanEnd
      + scanAmplitude * ((i : ℝ) / galvoStepDenom effectiveScanLen)
  let retrace :=
    if 0 < retraceLen then
      SplineInterpolate retraceLen scanEnd
        (galvoUndershootStart effectiveScanLen undershootLen scanStart scanEnd)
        (galvoStep effectiveScanLen scanStart scanEnd)
        (galvoStep effectiveScanLen scanStart scanEnd)
    else []
  linear ++ retrace

/-- `x_length = lineDelay + width + X_RETRACE_LEN`, the per-line sample count
used by all three clock generators and by `GenerateGalvoWaveformFrame`. -/
def xLength (p : WaveformParams) : ℕ := p.undershoot + p.width + X_RETRACE_LEN

/-- `yLength = linesPerFrame + Y_RETRACE_LEN` from `GenerateGalvoWaveformFrame`. -/
def yLength (p : WaveformParams) : ℕ := p.height + Y_RETRACE_LEN

/-- `GenerateLineClock` from `Waveform.c`: for each of `height` lines, sample
`i` is `1` iff `lineDelay <= i < lineDelay + width`. -/
def GenerateLineClock (p : WaveformParams) : List ℕ :=
  (List.range p.height).flatMap fun _j =>
    (List.range (xLength p)).map fun i =>
      if p.undershoot ≤ i ∧ i < p.undershoot + p.width then 1 else 0

/-- `GenerateFLIMLineClock` from `Waveform.c`: sample `i` is `1` iff
`i >= lineDelay + width`. -/
def GenerateFLIMLineClock (p : WaveformParams) : List ℕ :=
  (List.range p.height).flatMap fun _j =>
    (List.range (xLength p)).map fun i =>
      if p.undershoot + p.width ≤ i then 1 else 0

/-- `GenerateFLIMFrameClock` from `Waveform.c`: sample `i` of line `j` is `1`
iff `j == height - 1` and `i > lineDelay + width`. -/
def GenerateFLIMFrameClock (p : WaveformParams) : List ℕ :=
  (List.range p.height).flatMap fun j =>
    (List.range (xLength p)).map fun i =>
      if j = p.height - 1 ∧ p.undershoot + p.width < i then 1 else 0

/-- `GetClockWaveformSize` from `Waveform.c`: `elementsPerLine * height`. -/
def GetClockWaveformSize (p : WaveformParams) : ℕ := xLength p * p.height

/-- `GetScannerWaveformSize` from `Waveform.c`: `elementsPerLine * yLen`. -/
def GetScannerWaveformSize (p : WaveformParams) : ℕ := xLength p * yLength p

/-- The C conversion `uint32_t zoom = parameters->zoom;` (double to uint32). -/
noncomputable def zoomU (p : WaveformParams) : ℕ := (⌊p.zoom⌋).toNat

/-- The C conversion `uint32_t galvoOffsetX = parameters->galvoOffsetX;`. -/
noncomputable def galvoOffsetXU (p : WaveformParams) : ℕ := (⌊p.galvoOffsetX⌋).toNat

/-- The C conversion `uint32_t galvoOffsetY = parameters->galvoOffsetY;`. -/
noncomputable def galvoOffsetYU (p : WaveformParams) : ℕ := (⌊p.galvoOffsetY⌋).toNat

/-- The `uint32_t` product `zoom * resolution` used as divisor in
`GenerateGalvoWaveformFrame`. -/
noncomputable def frameDenomU (p : WaveformParams) : ℕ := zoomU p * p.resolution

/-- `zoom * resolution` converted to `double`, as used in the divisions
computing `xStart` and `yStart`. -/
noncomputable def frameDenom (p : WaveformParams) : ℝ := (frameDenomU p : ℝ)

/-- `xStart = (-0.5 * resolution + xOffset) / (zoom * resolution)`. -/
noncomputable def frameXStart (p : WaveformParams) : ℝ :=
  (-0.5 * (p.resolution : ℝ) + (p.xOffset : ℝ)) / frameDenom p

/-- `yStart = (-0.5 * resolution + yOffset) / (zoom * resolution)`. -/
noncomputable def frameYStart (p : WaveformParams) : ℝ :=
  (-0.5 * (p.resolution : ℝ) + (p.yOffset : ℝ)) / frameDenom p

/-- `xEnd = xStart + pixelsPerLine / (zoom * resolution)`; the division is
`uint32_t / uint32_t`, i.e. C integer division, modelled by `Nat.div`. -/
noncomputable def frameXEnd (p : WaveformParams) : ℝ :=
  frameXStart p + ((p.width / frameDenomU p : ℕ) : ℝ)

/-- `yEnd = yStart + linesPerFrame / (zoom * resolution)` (integer division). -/
noncomputable def frameYEnd (p : WaveformParams) : ℝ :=
  frameYStart p + ((p.height / frameDenomU p : ℕ) : ℝ)

/-- `offsetXinDegree = galvoOffsetX / 3.0` (after the uint32 conversion). -/
noncomputable def offsetXinDegree (p : WaveformParams) : ℝ := (galvoOffsetXU p : ℝ) / 3

/-- `offsetYinDegree = galvoOffsetY / 3.0` (after the uint32 conversion). -/
noncomputable def offsetYinDegree (p : WaveformParams) : ℝ := (galvoOffsetYU p : ℝ) / 3

/-- The scratch `xWaveform` buffer of `GenerateGalvoWaveformFrame`. -/
noncomputable def xWaveform (p : WaveformParams) : List ℝ :=
  GenerateGalvoWaveform p.width X_RETRACE_LEN p.undershoot (frameXStart p) (frameXEnd p)

/-- The scratch `yWaveform` buffer of `GenerateGalvoWaveformFrame`. -/
noncomputable def yWaveform (p : WaveformParams) : List ℝ :=
  GenerateGalvoWaveform p.height Y_RETRACE_LEN 0 (frameYStart p) (frameYEnd p)

/-- `GenerateGalvoWaveformFrame` from `Waveform.c`: the X block (indices
`i + j*xLength` for `j < yLength`, `i < xLength`) followed by the Y block
(indices `i + j*xLength + yLength*xLength`). -/
noncomputable def GenerateGalvoWaveformFrame (p : WaveformParams) : List ℝ :=
  ((List.range (yLength p)).flatMap fun j =>
    (List.range (xLength p)).map fun i =>
      if j < p.height then (xWaveform p).getD i 0 + offsetXinDegree p
      else (xWaveform p).getD 0 0 + offsetXinDegree p)
    ++ ((List.range (yLength p)).flatMap fun j =>
      (List.range (xLength p)).map fun _i =>
        (yWaveform p).getD j 0 + offsetYinDegree p)

/-- The parameter record with the three `double` fields replaced by their
uint32 truncations, as read by `GenerateGalvoWaveformFrame`. -/
noncomputable def truncParams (p : WaveformParams) : WaveformParams :=
  { p with
    zoom := (zoomU p : ℝ)
    galvoOffsetX := (galvoOffsetXU p : ℝ)
    galvoOffsetY := (galvoOffsetYU p : ℝ) }

/-! ### Generic list-indexing helpers -/

lemma flat_index_lt {x y j i : ℕ} (hj : j < y) (hi : i < x) : i + j * x < y * x := by
  have h2 : (j + 1) * x ≤ y * x := Nat.mul_le_mul_right x hj
  rw [Nat.succ_mul] at h2
  omega

lemma length_flatMap_rows {α : Type} :
    ∀ (m : ℕ) (g : ℕ → List α) (n : ℕ), (∀ j, (g j).length = n) →
      ((List.range m).flatMap g).length = m * n := by
  intro m
  induction m with
  | zero => intro g n hg; simp
  | succ m ih =>
    intro g n hg
    rw [List.range_succ, List.flatMap_append, List.length_append, ih g n hg]
    simp [hg m, Nat.succ_mul]

lemma getD_flatMap_rows {α : Type} (d : α) :
    ∀ (m : ℕ) (g : ℕ → List α) (n : ℕ), (∀ j, (g j).length = n) →
      ∀ j i, j < m → i < n →
        ((List.range m).flatMap g).getD (i + j * n) d = (g j).getD i d := by
  intro m
  induction m with
  | zero => intro g n hg j i hj hi; exact absurd hj (Nat.not_lt_zero j)
  | succ m ih =>
    intro g n hg j i hj hi
    rw [List.range_succ_eq_map, List.flatMap_cons, List.flatMap_map]
    cases j with
    | zero =>
      simp only [Nat.zero_mul, Nat.add_zero]
      exact List.getD_append _ _ _ _ (by rw [hg 0]; exact hi)
    | succ jj =>
      have h0 : (g 0).length = n := hg 0
      have hle : (g 0).length ≤ i + (jj + 1) * n := by
        rw [h0, Nat.succ_mul]; omega
      rw [List.getD_append_right _ _ _ _ hle]
      have hidx : i + (jj + 1) * n - (g 0).length = i + jj * n := by
        rw [h0, Nat.succ_mul]; omega
      rw [hidx]
      exact ih _ n (fun a => hg _) jj i (Nat.lt_of_succ_lt_succ hj) hi

lemma getD_map_range {α : Type} (d : α) (f : ℕ → α) {n i : ℕ} (h : i < n) :
    ((List.range n).map f).getD i d = f i := by
  rw [List.getD_eq_getElem _ _ (by simpa using h), List.getElem_map, List.getElem_range]

/-! ### Evaluation lemmas for the generators -/

lemma SplineInterpolate_getD (n : ℕ) (yF yL sF sL : ℝ) {x : ℕ} (hx : x < n) :
    (SplineInterpolate n yF yL sF sL).getD x 0
      = splineC0 n yF yL sF sL * (x : ℝ) * (x : ℝ) * (x : ℝ)
        + splineC1 n yF yL sF sL * (x : ℝ) * (x : ℝ)
        + splineC2 n yF yL sF sL * (x : ℝ) + splineC3 n yF yL sF sL := by
  rw [SplineInterpolate, getD_map_range 0 _ hx]

lemma GenerateGalvoWaveform_getD_linear (esl rl usl : ℕ) (s e : ℝ) {i : ℕ}
    (hi : i < usl + esl) :
    (GenerateGalvoWaveform esl rl usl s e).getD i 0
      = galvoUndershootStart esl usl s e
        + (e - s) * ((i : ℝ) / galvoStepDenom esl) := by
  rw [GenerateGalvoWaveform]
  rw [List.getD_append _ _ _ _ (by simpa using hi), getD_map_range 0 _ hi]

lemma GenerateGalvoWaveform_getD_retrace (esl rl usl : ℕ) (s e : ℝ) {x : ℕ}
    (hx : x < rl) :
    (GenerateGalvoWaveform esl rl usl s e).getD (usl + esl + x) 0
      = (SplineInterpolate rl e (galvoUndershootStart esl usl s e)
          (galvoStep esl s e) (galvoStep esl s e)).getD x 0 := by
  rw [GenerateGalvoWaveform]
  rw [if_pos (Nat.pos_of_ne_zero (by omega))]
  rw [List.getD_append_right _ _ _ _ (by simp)]
  simp only [List.length_map, List.length_range]
  congr 1
  omega

lemma GenerateLineClock_getD (p : WaveformParams) {j i : ℕ} (hj : j < p.height)
    (hi : i < xLength p) :
    (GenerateLineClock p).getD (i + j * xLength p) 0
      = if p.undershoot ≤ i ∧ i < p.undershoot + p.width then 1 else 0 := by
  rw [GenerateLineClock,
    getD_flatMap_rows 0 p.height _ (xLength p) (fun _ => by simp) j i hj hi,
    getD_map_range 0 _ hi]

lemma GenerateFLIMLineClock_getD (p : WaveformParams) {j i : ℕ} (hj : j < p.height)
    (hi : i < xLength p) :
    (GenerateFLIMLineClock p).getD (i + j * xLength p) 0
      = if p.undershoot + p.width ≤ i then 1 else 0 := by
  rw [GenerateFLIMLineClock,
    getD_flatMap_rows 0 p.height _ (xLength p) (fun _ => by simp) j i hj hi,
    getD_map_range 0 _ hi]

lemma GenerateFLIMFrameClock_getD (p : WaveformParams) {j i : ℕ} (hj : j < p.height)
    (hi : i < xLength p) :
    (GenerateFLIMFrameClock p).getD (i + j * xLength p) 0
      = if j = p.height - 1 ∧ p.undershoot + p.width < i then 1 else 0 := by
  rw [GenerateFLIMFrameClock,
    getD_flatMap_rows 0 p.height _ (xLength p) (fun _ => by simp) j i hj hi,
    getD_map_range 0 _ hi]

lemma GenerateLineClock_length (p : WaveformParams) :
    (GenerateLineClock p).length = p.height * xLength p :=
  length_flatMap_rows p.height _ (xLength p) (fun _ => by simp)

lemma GenerateFLIMLineClock_length (p : WaveformParams) :
    (GenerateFLIMLineClock p).length = p.height * xLength p :=
  length_flatMap_rows p.height _ (xLength p) (fun _ => by simp)

lemma GenerateFLIMFrameClock_length (p : WaveformParams) :
    (GenerateFLIMFrameClock p).length = p.height * xLength p :=
  length_flatMap_rows p.height _ (xLength p) (fun _ => by simp)

lemma GenerateGalvoWaveformFrame_length (p : WaveformParams) :
    (GenerateGalvoWaveformFrame p).length
      = yLength p * xLength p + yLength p * xLength p := by
  rw [GenerateGalvoWaveformFrame, List.length_append,
    length_flatMap_rows (yLength p) _ (xLength p) (fun _ => by simp),
    length_flatMap_rows (yLength p) _ (xLength p) (fun _ => by simp)]

lemma GenerateGalvoWaveformFrame_getD_x (p : WaveformParams) {j i : ℕ}
    (hj : j < yLength p) (hi : i < xLength p) :
    (GenerateGalvoWaveformFrame p).getD (i + j * xLength p) 0
      = if j < p.height then (xWaveform p).getD i 0 + offsetXinDegree p
        else (xWaveform p).getD 0 0 + offsetXinDegree p := by
  rw [GenerateGalvoWaveformFrame]
  rw [List.getD_append _ _ _ _ (by
    rw [length_flatMap_rows (yLength p) _ (xLength p) (fun _ => by simp)]
    exact flat_index_lt hj hi)]
  rw [getD_flatMap_rows 0 (yLength p) _ (xLength p) (fun _ => by simp) j i hj hi,
    getD_map_range 0 _ hi]

lemma GenerateGalvoWaveformFrame_getD_y (p : WaveformParams) {j i : ℕ}
    (hj : j < yLength p) (hi : i < xLength p) :
    (GenerateGalvoWaveformFrame p).getD (i + j * xLength p + yLength p * xLength p) 0
      = (yWaveform p).getD j 0 + offsetYinDegree p := by
  rw [GenerateGalvoWaveformFrame]
  rw [List.getD_append_right _ _ _ _ (by
    rw [length_flatMap_rows (yLength p) _ (xLength p) (fun _ => by simp)]
    omega)]
  rw [length_flatMap_rows (yLength p) _ (xLength p) (fun _ => by simp)]
  have hidx : i + j * xLength p + yLength p * xLength p - yLength p * xLength p
      = i + j * xLength p := by omega
  rw [hidx,
    getD_flatMap_rows 0 (yLength p) _ (xLength p) (fun _ => by simp) j i hj hi,
    getD_map_range 0 _ hi]

/-! ### Shared concrete parameter records for witnesses -/

/-- A concrete parameter record satisfying the section-3 invariants
(`width>0`, `height>0`, `resolution>0`, `zoom>0`), with nonzero undershoot. -/
def sampleParams : WaveformParams :=
  { width := 4, height := 2, resolution := 4, zoom := 1, undershoot := 1,
    xOffset := 0, yOffset := 0, galvoOffsetX := 0, galvoOffsetY := 0 }

/-! ### C1 -/

/-- Claim C1, amended: `GetClockWaveformSize` equals the exact number of
samples written by each of the three clock generators, and
`GetScannerWaveformSize` equals the per-channel sample count of
`GenerateGalvoWaveformFrame`, i.e. half the total number of samples written
(the frame buffer holds an X block and a Y block of that size each). -/
theorem C1_size_consistency (p : WaveformParams) :
    GetClockWaveformSize p = (GenerateLineClock p).length
      ∧ GetClockWaveformSize p = (GenerateFLIMLineClock p).length
      ∧ GetClockWaveformSize p = (GenerateFLIMFrameClock p).length
      ∧ 2 * GetScannerWaveformSize p = (GenerateGalvoWaveformFrame p).length := by
  refine ⟨?_, ?_, ?_, ?_⟩
  · rw [GenerateLineClock_length, GetClockWaveformSize, Nat.mul_comm]
  · rw [GenerateFLIMLineClock_length, GetClockWaveformSize, Nat.mul_comm]
  · rw [GenerateFLIMFrameClock_length, GetClockWaveformSize, Nat.mul_comm]
  · rw [GenerateGalvoWaveformFrame_length, GetScannerWaveformSize]; ring

/-- Claim C1 fails as stated: at a concrete invariant-satisfying parameter
record, the size reported by `GetScannerWaveformSize` is not the number of
samples written by `GenerateGalvoWaveformFrame` (it is half of it). -/
theorem C1_counterexample :
    GetScannerWaveformSize sampleParams
      ≠ (GenerateGalvoWaveformFrame sampleParams).length := by
  rw [GenerateGalvoWaveformFrame_length]
  decide

/-! ### C4 -/

/-- Claim C4: with `retraceLen = 0`, the waveform is one linear ramp: value
`scanStart` at index `undershootLen`, value `scanEnd` at index
`undershootLen+effectiveScanLen-1`, consecutive differences equal to
`step = (scanEnd-scanStart)/(effectiveScanLen-1)` on the active range, and
every index below `undershootLen+effectiveScanLen` lies on the same line
(backward extrapolation before the undershoot point). -/
theorem C4_ramp_linearity (esl usl : ℕ) (s e : ℝ) (h : 1 < esl) :
    (GenerateGalvoWaveform esl 0 usl s e).getD usl 0 = s
      ∧ (GenerateGalvoWaveform esl 0 usl s e).getD (usl + esl - 1) 0 = e
      ∧ (∀ i, usl ≤ i → i + 1 < usl + esl →
          (GenerateGalvoWaveform esl 0 usl s e).getD (i + 1) 0
            - (GenerateGalvoWaveform esl 0 usl s e).getD i 0 = galvoStep esl s e)
      ∧ (∀ i, i < usl + esl →
          (GenerateGalvoWaveform esl 0 usl s e).getD i 0
            = s + ((i : ℝ) - (usl : ℝ)) * galvoStep esl s e) := by
  have h1 : (1 : ℝ) < (esl : ℝ) := by exact_mod_cast h
  have hne : galvoStepDenom esl ≠ 0 := by rw [galvoStepDenom]; intro hc; linarith
  have hval : ∀ i : ℕ, i < usl + esl →
      (GenerateGalvoWaveform esl 0 usl s e).getD i 0
        = s + ((i : ℝ) - (usl : ℝ)) * galvoStep esl s e := by
    intro i hi
    rw [GenerateGalvoWaveform_getD_linear esl 0 usl s e hi,
      galvoUndershootStart, galvoStep]
    field_simp
    ring
  refine ⟨?_, ?_, ?_, hval⟩
  · rw [hval usl (by omega)]; ring
  · rw [hval (usl + esl - 1) (by omega), Nat.cast_sub (by omega : 1 ≤ usl + esl)]
    rw [galvoStep, galvoStepDenom]
    push_cast
    field_simp [galvoStepDenom] at hne ⊢
    ring
  · intro i hi1 hi2
    rw [hval (i + 1) (by omega), hval i (by omega)]
    push_cast
    ring

/-- Concrete instantiation of `C4_ramp_linearity` at
`effectiveScanLen = 4`, `undershootLen = 1`, `scanStart = 0`, `scanEnd = 1`. -/
theorem C4_ramp_linearity_witness :
    (GenerateGalvoWaveform 4 0 1 0 1).getD 1 0 = 0
      ∧ (GenerateGalvoWaveform 4 0 1 0 1).getD (1 + 4 - 1) 0 = 1
      ∧ (∀ i, 1 ≤ i → i + 1 < 1 + 4 →
          (GenerateGalvoWaveform 4 0 1 0 1).getD (i + 1) 0
            - (GenerateGalvoWaveform 4 0 1 0 1).getD i 0 = galvoStep 4 0 1)
      ∧ (∀ i, i < 1 + 4 →
          (GenerateGalvoWaveform 4 0 1 0 1).getD i 0
            = 0 + ((i : ℝ) - ((1 : ℕ) : ℝ)) * galvoStep 4 0 1) :=
  C4_ramp_linearity 4 1 0 1 (by norm_num)

/-! ### C5 -/

/-- Claim C5: `SplineInterpolate` sets `c3 = yFirst` and `c2 = slopeFirst`
identically, its first output sample equals `yFirst`, and the fitted cubic
attains `yLast` exactly at the idealized continuous boundary `x = n`. -/
theorem C5_spline_boundary (n : ℕ) (yF yL sF sL : ℝ) (h : 1 < n) :
    splineC3 n yF yL sF sL = yF
      ∧ splineC2 n yF yL sF sL = sF
      ∧ (SplineInterpolate n yF yL sF sL).getD 0 0 = yF
      ∧ splineC0 n yF yL sF sL * (n : ℝ) * (n : ℝ) * (n : ℝ)
          + splineC1 n yF yL sF sL * (n : ℝ) * (n : ℝ)
          + splineC2 n yF yL sF sL * (n : ℝ) + splineC3 n yF yL sF sL = yL := by
  have hn : (n : ℝ) ≠ 0 := Nat.cast_ne_zero.mpr (by omega)
  refine ⟨rfl, rfl, ?_, ?_⟩
  · rw [SplineInterpolate_getD n yF yL sF sL (by omega : 0 < n)]
    simp [splineC3]
  · rw [splineC0, splineC1, splineC2, splineC3, splineDenom1, splineDenom2, splineDenom3]
    field_simp
    ring

/-- Concrete instantiation of `C5_spline_boundary` at `n = 2`. -/
theorem C5_spline_boundary_witness :
    splineC3 2 5 7 11 13 = 5
      ∧ splineC2 2 5 7 11 13 = 11
      ∧ (SplineInterpolate 2 5 7 11 13).getD 0 0 = 5
      ∧ splineC0 2 5 7 11 13 * ((2 : ℕ) : ℝ) * ((2 : ℕ) : ℝ) * ((2 : ℕ) : ℝ)
          + splineC1 2 5 7 11 13 * ((2 : ℕ) : ℝ) * ((2 : ℕ) : ℝ)
          + splineC2 2 5 7 11 13 * ((2 : ℕ) : ℝ) + splineC3 2 5 7 11 13 = 7 :=
  C5_spline_boundary 2 5 7 11 13 (by norm_num)

/-! ### C10 -/

/-- Claim C10: under the preconditions `effectiveScanLen > 1` and `n > 1`,
every divisor used by `GenerateGalvoWaveform` (the denominator
`effectiveScanLen - 1` of `step`) and by `SplineInterpolate` (the denominators
`n`, `n*n`, `n*n*n` of the coefficient formulas) is nonzero, so no division
by zero is reachable. -/
theorem C10_no_division_by_zero (esl n : ℕ) (h1 : 1 < esl) (h2 : 1 < n) :
    galvoStepDenom esl ≠ 0 ∧ splineDenom1 n ≠ 0
      ∧ splineDenom2 n ≠ 0 ∧ splineDenom3 n ≠ 0 := by
  have he : (1 : ℝ) < (esl : ℝ) := by exact_mod_cast h1
  have hn : (n : ℝ) ≠ 0 := Nat.cast_ne_zero.mpr (by omega)
  refine ⟨?_, ?_, ?_, ?_⟩
  · rw [galvoStepDenom]; intro hc; linarith
  · rw [splineDenom1]; exact hn
  · rw [splineDenom2]; exact mul_ne_zero hn hn
  · rw [splineDenom3]; exact mul_ne_zero (mul_ne_zero hn hn) hn

/-- Concrete instantiation of `C10_no_division_by_zero` at
`effectiveScanLen = 2`, `n = 2`. -/
theorem C10_no_division_by_zero_witness :
    galvoStepDenom 2 ≠ 0 ∧ splineDenom1 2 ≠ 0
      ∧ splineDenom2 2 ≠ 0 ∧ splineDenom3 2 ≠ 0 :=
  C10_no_division_by_zero 2 2 (by norm_num) (by norm_num)

/-! ### C7 -/

/-- Claim C7: on every line `j < height`, sample `i` of the line clock is `1`
iff `undershoot <= i < undershoot + width`, and consequently every line
contains exactly `width` high samples. -/
theorem C7_line_clock_window (p : WaveformParams) (j : ℕ) (hj : j < p.height) :
    (∀ i, i < xLength p →
      (GenerateLineClock p).getD (i + j * xLength p) 0
        = if p.undershoot ≤ i ∧ i < p.undershoot + p.width then 1 else 0)
      ∧ ((Finset.range (xLength p)).filter
          (fun i => (GenerateLineClock p).getD (i + j * xLength p) 0 = 1)).card
        = p.width := by
  have hx : xLength p = p.undershoot + p.width + 128 := rfl
  constructor
  · intro i hi
    exact GenerateLineClock_getD p hj hi
  · have hcong : ∀ a ∈ Finset.range (xLength p),
        ((GenerateLineClock p).getD (a + j * xLength p) 0 = 1)
          ↔ (p.undershoot ≤ a ∧ a < p.undershoot + p.width) := by
      intro a ha
      rw [Finset.mem_range] at ha
      rw [GenerateLineClock_getD p hj ha]
      split_ifs with hcond
      · simp [hcond]
      · simp [hcond]
    rw [Finset.filter_congr hcong]
    have hset : (Finset.range (xLength p)).filter
        (fun a => p.undershoot ≤ a ∧ a < p.undershoot + p.width)
        = Finset.Ico p.undershoot (p.undershoot + p.width) := by
      ext a
      simp only [Finset.mem_filter, Finset.mem_range, Finset.mem_Ico]
      omega
    rw [hset, Nat.card_Ico]
    omega

/-- Concrete instantiation of `C7_line_clock_window` on line `j = 1` of
`sampleParams`. -/
theorem C7_line_clock_window_witness :
    (∀ i, i < xLength sampleParams →
      (GenerateLineClock sampleParams).getD (i + 1 * xLength sampleParams) 0
        = if sampleParams.undershoot ≤ i
              ∧ i < sampleParams.undershoot + sampleParams.width then 1 else 0)
      ∧ ((Finset.range (xLength sampleParams)).filter
          (fun i =>
            (GenerateLineClock sampleParams).getD (i + 1 * xLength sampleParams) 0
              = 1)).card
        = sampleParams.width :=
  C7_line_clock_window sampleParams 1 (by decide)

/-! ### C8 -/

/-- Claim C8: on every line and at every sample index, the line clock and the
FLIM line clock are never both `1`; on `[undershoot, lineLength)` exactly one
of them is `1`; and the FLIM line clock is `1` exactly on
`[undershoot+width, lineLength)`. -/
theorem C8_clock_disjointness (p : WaveformParams) (j i : ℕ) (hj : j < p.height)
    (hi : i < xLength p) :
    ¬((GenerateLineClock p).getD (i + j * xLength p) 0 = 1
        ∧ (GenerateFLIMLineClock p).getD (i + j * xLength p) 0 = 1)
      ∧ (p.undershoot ≤ i →
          ((GenerateLineClock p).getD (i + j * xLength p) 0 = 1
            ↔ ¬(GenerateFLIMLineClock p).getD (i + j * xLength p) 0 = 1))
      ∧ ((GenerateFLIMLineClock p).getD (i + j * xLength p) 0 = 1
          ↔ p.undershoot + p.width ≤ i) := by
  rw [GenerateLineClock_getD p hj hi, GenerateFLIMLineClock_getD p hj hi]
  refine ⟨?_, ?_, ?_⟩
  · split_ifs with hc1 hc2 <;> simp_all <;> omega
  · intro hui
    split_ifs with hc1 hc2 <;> simp_all <;> omega
  · split_ifs with hc <;> simp_all

/-- Concrete instantiation of `C8_clock_disjointness` at `j = 0`, `i = 1` of
`sampleParams`. -/
theorem C8_clock_disjointness_witness :
    ¬((GenerateLineClock sampleParams).getD (1 + 0 * xLength sampleParams) 0 = 1
        ∧ (GenerateFLIMLineClock sampleParams).getD (1 + 0 * xLength sampleParams) 0
            = 1)
      ∧ (sampleParams.undershoot ≤ 1 →
          ((GenerateLineClock sampleParams).getD (1 + 0 * xLength sampleParams) 0 = 1
            ↔ ¬(GenerateFLIMLineClock sampleParams).getD
                (1 + 0 * xLength sampleParams) 0 = 1))
      ∧ ((GenerateFLIMLineClock sampleParams).getD (1 + 0 * xLength sampleParams) 0
            = 1
          ↔ sampleParams.undershoot + sampleParams.width ≤ 1) :=
  C8_clock_disjointness sampleParams 0 1 (by decide) (by decide)

/-! ### C9 -/

/-- Claim C9: the FLIM frame clock sample at index `i` of line `j` is `1` iff
`j = height - 1` and `i > undershoot + width`; within the last line a high
sample exists. -/
theorem C9_frame_clock_singularity (p : WaveformParams) (hp : 0 < p.height) :
    (∀ j i, j < p.height → i < xLength p →
      ((GenerateFLIMFrameClock p).getD (i + j * xLength p) 0 = 1
        ↔ (j = p.height - 1 ∧ p.undershoot + p.width < i)))
      ∧ (∃ i, i < xLength p
          ∧ (GenerateFLIMFrameClock p).getD (i + (p.height - 1) * xLength p) 0
              = 1) := by
  have hx : xLength p = p.undershoot + p.width + 128 := rfl
  constructor
  · intro j i hj hi
    rw [GenerateFLIMFrameClock_getD p hj hi]
    split_ifs with hc
    · simp [hc]
    · simp [hc]
  · refine ⟨p.undershoot + p.width + 1, by omega, ?_⟩
    rw [GenerateFLIMFrameClock_getD p (by omega) (by omega)]
    rw [if_pos ⟨rfl, by omega⟩]

/-- Concrete instantiation of `C9_frame_clock_singularity` at `sampleParams`. -/
theorem C9_frame_clock_singularity_witness :
    (∀ j i, j < sampleParams.height → i < xLength sampleParams →
      ((GenerateFLIMFrameClock sampleParams).getD (i + j * xLength sampleParams) 0
          = 1
        ↔ (j = sampleParams.height - 1
            ∧ sampleParams.undershoot + sampleParams.width < i)))
      ∧ (∃ i, i < xLength sampleParams
          ∧ (GenerateFLIMFrameClock sampleParams).getD
              (i + (sampleParams.height - 1) * xLength sampleParams) 0 = 1) :=
  C9_frame_clock_singularity sampleParams (by decide)

/-! ### C2 -/

/-- Claim C2: layout of the merged frame buffer.  For `j < yLength`,
`i < xLength`: the X-channel sample at `i + j*xLength` is the X axis waveform
at `i` (or its index-0 sample once `j >= height`) plus the X trim offset, and
the Y-channel sample at `i + j*xLength + yLength*xLength` is the Y axis
waveform at `j` plus the Y trim offset, independent of `i`; the buffer is the
X block followed by the Y block, `xLength*yLength` samples each. -/
theorem C2_frame_layout (p : WaveformParams) (j i : ℕ) (hj : j < yLength p)
    (hi : i < xLength p) :
    (GenerateGalvoWaveformFrame p).getD (i + j * xLength p) 0
        = (if j < p.height
            then (GenerateGalvoWaveform p.width X_RETRACE_LEN p.undershoot
                (frameXStart p) (frameXEnd p)).getD i 0
            else (GenerateGalvoWaveform p.width X_RETRACE_LEN p.undershoot
                (frameXStart p) (frameXEnd p)).getD 0 0)
          + offsetXinDegree p
      ∧ (GenerateGalvoWaveformFrame p).getD
            (i + j * xLength p + yLength p * xLength p) 0
          = (GenerateGalvoWaveform p.height Y_RETRACE_LEN 0
              (frameYStart p) (frameYEnd p)).getD j 0 + offsetYinDegree p
      ∧ (GenerateGalvoWaveformFrame p).length
          = xLength p * yLength p + xLength p * yLength p := by
  refine ⟨?_, ?_, ?_⟩
  · by_cases h : j < p.height
    · rw [GenerateGalvoWaveformFrame_getD_x p hj hi, if_pos h, if_pos h, xWaveform]
    · rw [GenerateGalvoWaveformFrame_getD_x p hj hi, if_neg h, if_neg h, xWaveform]
  · rw [GenerateGalvoWaveformFrame_getD_y p hj hi, yWaveform]
  · rw [GenerateGalvoWaveformFrame_length]; ring

/-- Concrete instantiation of `C2_frame_layout` at `j = 0`, `i = 0` of
`sampleParams`. -/
theorem C2_frame_layout_witness :
    (GenerateGalvoWaveformFrame sampleParams).getD
          (0 + 0 * xLength sampleParams) 0
        = (if 0 < sampleParams.height
            then (GenerateGalvoWaveform sampleParams.width X_RETRACE_LEN
                sampleParams.undershoot (frameXStart sampleParams)
                (frameXEnd sampleParams)).getD 0 0
            else (GenerateGalvoWaveform sampleParams.width X_RETRACE_LEN
                sampleParams.undershoot (frameXStart sampleParams)
                (frameXEnd sampleParams)).getD 0 0)
          + offsetXinDegree sampleParams
      ∧ (GenerateGalvoWaveformFrame sampleParams).getD
            (0 + 0 * xLength sampleParams
              + yLength sampleParams * xLength sampleParams) 0
          = (GenerateGalvoWaveform sampleParams.height Y_RETRACE_LEN 0
              (frameYStart sampleParams) (frameYEnd sampleParams)).getD 0 0
            + offsetYinDegree sampleParams
      ∧ (GenerateGalvoWaveformFrame sampleParams).length
          = xLength sampleParams * yLength sampleParams
            + xLength sampleParams * yLength sampleParams :=
  C2_frame_layout sampleParams 0 0 (by decide) (by decide)

/-! ### C3 -/

lemma zoomU_truncParams (p : WaveformParams) :
    zoomU (truncParams p) = zoomU p := by
  have h : (truncParams p).zoom = ((zoomU p : ℕ) : ℝ) := rfl
  rw [zoomU, h, Int.floor_natCast, Int.toNat_natCast]

lemma galvoOffsetXU_truncParams (p : WaveformParams) :
    galvoOffsetXU (truncParams p) = galvoOffsetXU p := by
  have h : (truncParams p).galvoOffsetX = ((galvoOffsetXU p : ℕ) : ℝ) := rfl
  rw [galvoOffsetXU, h, Int.floor_natCast, Int.toNat_natCast]

lemma galvoOffsetYU_truncParams (p : WaveformParams) :
    galvoOffsetYU (truncParams p) = galvoOffsetYU p := by
  have h : (truncParams p).galvoOffsetY = ((galvoOffsetYU p : ℕ) : ℝ) := rfl
  rw [galvoOffsetYU, h, Int.floor_natCast, Int.toNat_natCast]

/-- Claim C3: `GenerateGalvoWaveformFrame` reads `zoom`, `galvoOffsetX` and
`galvoOffsetY` through uint32 conversions, so its output is unchanged when
those fields are replaced by their integer truncations; and whenever
`0 < zoom < 1` the divisor `zoom * resolution` used for the voltage bounds
is zero. -/
theorem C3_frame_uint32_truncation (p : WaveformParams) :
    GenerateGalvoWaveformFrame p = GenerateGalvoWaveformFrame (truncParams p)
      ∧ (0 < p.zoom → p.zoom < 1 → frameDenomU p = 0 ∧ frameDenom p = 0) := by
  have hres : (truncParams p).resolution = p.resolution := rfl
  have hwid : (truncParams p).width = p.width := rfl
  have hhei : (truncParams p).height = p.height := rfl
  have hund : (truncParams p).undershoot = p.undershoot := rfl
  have hxof : (truncParams p).xOffset = p.xOffset := rfl
  have hyof : (truncParams p).yOffset = p.yOffset := rfl
  have hdU : frameDenomU (truncParams p) = frameDenomU p := by
    rw [frameDenomU, frameDenomU, zoomU_truncParams, hres]
  have hd : frameDenom (truncParams p) = frameDenom p := by
    rw [frameDenom, frameDenom, hdU]
  have hxs : frameXStart (truncParams p) = frameXStart p := by
    rw [frameXStart, frameXStart, hd, hres, hxof]
  have hys : frameYStart (truncParams p) = frameYStart p := by
    rw [frameYStart, frameYStart, hd, hres, hyof]
  have hxe : frameXEnd (truncParams p) = frameXEnd p := by
    rw [frameXEnd, frameXEnd, hxs, hdU, hwid]
  have hye : frameYEnd (truncParams p) = frameYEnd p := by
    rw [frameYEnd, frameYEnd, hys, hdU, hhei]
  have hox : offsetXinDegree (truncParams p) = offsetXinDegree p := by
    rw [offsetXinDegree, offsetXinDegree, galvoOffsetXU_truncParams]
  have hoy : offsetYinDegree (truncParams p) = offsetYinDegree p := by
    rw [offsetYinDegree, offsetYinDegree, galvoOffsetYU_truncParams]
  have hxw : xWaveform (truncParams p) = xWaveform p := by
    rw [xWaveform, xWaveform, hxs, hxe, hwid, hund]
  have hyw : yWaveform (truncParams p) = yWaveform p := by
    rw [yWaveform, yWaveform, hys, hye, hhei]
  have hxl : xLength (truncParams p) = xLength p := by
    rw [xLength, xLength, hund, hwid]
  have hyl : yLength (truncParams p) = yLength p := by
    rw [yLength, yLength, hhei]
  constructor
  · rw [GenerateGalvoWaveformFrame, GenerateGalvoWaveformFrame,
      hxw, hyw, hox, hoy, hxl, hyl, hhei]
  · intro h0 h1
    have hfl : ⌊p.zoom⌋ = 0 := by
      rw [Int.floor_eq_zero_iff]
      exact ⟨le_of_lt h0, h1⟩
    have hzU : zoomU p = 0 := by simp [zoomU, hfl]
    refine ⟨?_, ?_⟩
    · rw [frameDenomU, hzU, Nat.zero_mul]
    · rw [frameDenom, frameDenomU, hzU, Nat.zero_mul, Nat.cast_zero]

/-- A concrete parameter record with fractional zoom `1/2`. -/
noncomputable def halfZoomParams : WaveformParams :=
  { width := 256, height := 256, resolution := 512, zoom := 1 / 2,
    undershoot := 16, xOffset := 0, yOffset := 0,
    galvoOffsetX := 0, galvoOffsetY := 0 }

/-- Concrete instantiation of `C3_frame_uint32_truncation` at zoom `1/2`. -/
theorem C3_frame_uint32_truncation_witness :
    GenerateGalvoWaveformFrame halfZoomParams
        = GenerateGalvoWaveformFrame (truncParams halfZoomParams)
      ∧ (frameDenomU halfZoomParams = 0 ∧ frameDenom halfZoomParams = 0) :=
  ⟨(C3_frame_uint32_truncation halfZoomParams).1,
    (C3_frame_uint32_truncation halfZoomParams).2
      (by norm_num [halfZoomParams]) (by norm_num [halfZoomParams])⟩

/-! ### C6 -/

lemma hasDerivAt_cubic (a b c d t : ℝ) :
    HasDerivAt (fun x : ℝ => a * x * x * x + b * x * x + c * x + d)
      (3 * a * t * t + 2 * b * t + c) t := by
  have h1 : HasDerivAt (fun x : ℝ => x) 1 t := hasDerivAt_id t
  have ha : HasDerivAt (fun x : ℝ => a * x) (a * 1) t := h1.const_mul a
  have ha2 : HasDerivAt (fun x : ℝ => a * x * x) (a * 1 * t + a * t * 1) t :=
    ha.mul h1
  have ha3 : HasDerivAt (fun x : ℝ => a * x * x * x)
      ((a * 1 * t + a * t * 1) * t + a * t * t * 1) t := ha2.mul h1
  have hb : HasDerivAt (fun x : ℝ => b * x) (b * 1) t := h1.const_mul b
  have hb2 : HasDerivAt (fun x : ℝ => b * x * x) (b * 1 * t + b * t * 1) t :=
    hb.mul h1
  have hc : HasDerivAt (fun x : ℝ => c * x) (c * 1) t := h1.const_mul c
  have hsum := ((ha3.add hb2).add hc).add_const d
  have heq : 3 * a * t * t + 2 * b * t + c
      = (a * 1 * t + a * t * 1) * t + a * t * t * 1 + (b * 1 * t + b * t * 1)
        + c * 1 := by ring
  rw [heq]
  exact hsum

lemma deriv_cubic (a b c d t : ℝ) :
    deriv (fun x : ℝ => a * x * x * x + b * x * x + c * x + d) t
      = 3 * a * t * t + 2 * b * t + c :=
  (hasDerivAt_cubic a b c d t).deriv

/-- Claim C6 fails as stated: at `effectiveScanLen = 2`, `retraceLen = 2`,
`undershootLen = 0`, `scanStart = 0`, `scanEnd = 1`, the discrete difference
`retrace[1] - retrace[0]` does not equal the ramp step. -/
theorem C6_counterexample :
    ¬((GenerateGalvoWaveform 2 2 0 0 1).getD (0 + 2 + 1) 0
        - (GenerateGalvoWaveform 2 2 0 0 1).getD (0 + 2 + 0) 0
      = galvoStep 2 0 1) := by
  rw [GenerateGalvoWaveform_getD_retrace 2 2 0 0 1 (by norm_num : (1 : ℕ) < 2),
    GenerateGalvoWaveform_getD_retrace 2 2 0 0 1 (by norm_num : (0 : ℕ) < 2),
    SplineInterpolate_getD 2 _ _ _ _ (by norm_num : (1 : ℕ) < 2),
    SplineInterpolate_getD 2 _ _ _ _ (by norm_num : (0 : ℕ) < 2)]
  rw [splineC0, splineC1, splineC2, splineC3, galvoUndershootStart, galvoStep,
    galvoStepDenom, splineDenom1, splineDenom2, splineDenom3]
  norm_num

/-- Claim C6, amended: the retrace samples are the fitted cubic evaluated at
`0, ..., retraceLen-1`, and it is the derivative of that fitted cubic — not
the discrete sample difference — that equals the ramp step at both idealized
boundaries `x = 0` and `x = retraceLen`, so the retrace departs and arrives
tangent to the linear ramp. -/
theorem C6_retrace_tangency (esl rl usl : ℕ) (s e : ℝ) (h1 : 1 < esl)
    (h2 : 2 ≤ rl) :
    (∀ x, x < rl →
      (GenerateGalvoWaveform esl rl usl s e).getD (usl + esl + x) 0
        = splineC0 rl e (galvoUndershootStart esl usl s e) (galvoStep esl s e)
              (galvoStep esl s e) * (x : ℝ) * (x : ℝ) * (x : ℝ)
          + splineC1 rl e (galvoUndershootStart esl usl s e) (galvoStep esl s e)
              (galvoStep esl s e) * (x : ℝ) * (x : ℝ)
          + galvoStep esl s e * (x : ℝ) + e)
      ∧ deriv (fun t : ℝ =>
          splineC0 rl e (galvoUndershootStart esl usl s e) (galvoStep esl s e)
              (galvoStep esl s e) * t * t * t
            + splineC1 rl e (galvoUndershootStart esl usl s e) (galvoStep esl s e)
              (galvoStep esl s e) * t * t
            + galvoStep esl s e * t + e) 0 = galvoStep esl s e
      ∧ deriv (fun t : ℝ =>
          splineC0 rl e (galvoUndershootStart esl usl s e) (galvoStep esl s e)
              (galvoStep esl s e) * t * t * t
            + splineC1 rl e (galvoUndershootStart esl usl s e) (galvoStep esl s e)
              (galvoStep esl s e) * t * t
            + galvoStep esl s e * t + e) (rl : ℝ) = galvoStep esl s e := by
  refine ⟨?_, ?_, ?_⟩
  · intro x hx
    rw [GenerateGalvoWaveform_getD_retrace esl rl usl s e hx,
      SplineInterpolate_getD rl e _ _ _ hx, splineC2, splineC3]
  · rw [deriv_cubic]
    ring
  · rw [deriv_cubic]
    have hn : (rl : ℝ) ≠ 0 := Nat.cast_ne_zero.mpr (by omega)
    rw [splineC0, splineC1, splineDenom1, splineDenom2, splineDenom3]
    field_simp
    ring

/-- Concrete instantiation of `C6_retrace_tangency` at `effectiveScanLen = 2`,
`retraceLen = 2`, `undershootLen = 0`, `scanStart = 0`, `scanEnd = 1`. -/
theorem C6_retrace_tangency_witness :
    (∀ x, x < 2 →
      (GenerateGalvoWaveform 2 2 0 0 1).getD (0 + 2 + x) 0
        = splineC0 2 1 (galvoUndershootStart 2 0 0 1) (galvoStep 2 0 1)
              (galvoStep 2 0 1) * (x : ℝ) * (x : ℝ) * (x : ℝ)
          + splineC1 2 1 (galvoUndershootStart 2 0 0 1) (galvoStep 2 0 1)
              (galvoStep 2 0 1) * (x : ℝ) * (x : ℝ)
          + galvoStep 2 0 1 * (x : ℝ) + 1)
      ∧ deriv (fun t : ℝ =>
          splineC0 2 1 (galvoUndershootStart 2 0 0 1) (galvoStep 2 0 1)
              (galvoStep 2 0 1) * t * t * t
            + splineC1 2 1 (galvoUndershootStart 2 0 0 1) (galvoStep 2 0 1)
              (galvoStep 2 0 1) * t * t
            + galvoStep 2 0 1 * t + 1) 0 = galvoStep 2 0 1
      ∧ deriv (fun t : ℝ =>
          splineC0 2 1 (galvoUndershootStart 2 0 0 1) (galvoStep 2 0 1)
              (galvoStep 2 0 1) * t * t * t
            + splineC1 2 1 (galvoUndershootStart 2 0 0 1) (galvoStep 2 0 1)
              (galvoStep 2 0 1) * t * t
            + galvoStep 2 0 1 * t + 1) ((2 : ℕ) : ℝ) = galvoStep 2 0 1 :=
  C6_retrace_tangency 2 2 0 0 1 (by norm_num) (by norm_num)
